import Mathlib

/-!
Verification development for a Rust client of the Awair Local API
(`src/lib.rs`). The library exposes an error taxonomy (`Error`), three
serde-deserializable records (`AirData`, `LedConfig`, `DeviceConfig`)
and a client (`Awair`) with a constructor `new` and two request
operations `poll` and `config`.

The embedding models JSON documents as an inductive `Json` type whose
numbers are rationals, and models the serde-derived decoders of the
three records field by field, including the `#[serde(rename = "...")]`
attributes of the source. HTTP transport is abstracted as a function
from the request URL to a transport outcome, and the `url` crate's
`Url` type is modelled by its components together with its
`cannot_be_a_base` flag.
-/

set_option autoImplicit false

namespace AwairLocalApi

/-- JSON values as seen by serde_json. Numbers are modelled as rationals,
abstracting serde_json's distinction between i64/u64/f64 payloads; the
range and sign checks that the integer decoders perform are modelled
explicitly on the rational value. -/
inductive Json where
  | null
  | bool (b : Bool)
  | num (q : ℚ)
  | str (s : String)
  | arr (elems : List Json)
  | obj (fields : List (String × Json))

/-- First binding of a key in a JSON object, in document order. This models
serde_json's map access for struct deserialization (duplicate keys, on which
serde would report a duplicate-field error, play no role in any claim). -/
def findField : List (String × Json) → String → Option Json
  | [], _ => none
  | (k, v) :: rest, name => if k = name then some v else findField rest name

/-- Decode failures, modelling serde_json's error cases used by the claims. -/
inductive DecodeError where
  | missingField (name : String)
  | invalidValue
  | invalidType
  deriving DecidableEq

/-- Look up a required struct field and run its value decoder; a missing key
is a `missing field` error, as in serde's derived deserializers. -/
def reqField {α : Type} (kvs : List (String × Json)) (name : String)
    (dec : Json → Except DecodeError α) : Except DecodeError α :=
  match findField kvs name with
  | some v => dec v
  | none => .error (.missingField name)

/-- Chrono `DateTime<Utc>` is serialized as an RFC 3339 string. The claims
never depend on the lexical format, so the model carries the wire string
itself; chrono's parse-then-format round trip is modelled as the identity
on that string. -/
structure DateTimeUtc where
  raw : String
  deriving DecidableEq

/-- Decoder for the `timestamp` field (chrono `DateTime<Utc>`): accepts a
JSON string. -/
def decodeDateTime : Json → Except DecodeError DateTimeUtc
  | .str s => .ok ⟨s⟩
  | _ => .error .invalidType

/-- Decoder for Rust `String` fields. -/
def decodeString : Json → Except DecodeError String
  | .str s => .ok s
  | _ => .error .invalidType

/-- A rational that is a nonnegative integer bounded by `B` yields a natural
below `B + 1`. -/
theorem rat_toNat_lt {q : ℚ} {B : ℕ} (h0 : 0 ≤ q) (hb : q ≤ (B : ℚ))
    (hd : q.den = 1) : q.num.toNat < B + 1 := by
  have hq : (q.num : ℚ) = q := by
    have h := Rat.num_div_den q
    rw [hd] at h
    simpa using h
  have h1 : (0 : ℤ) ≤ q.num := Rat.num_nonneg.mpr h0
  have h2 : q.num ≤ (B : ℤ) := by
    rw [← hq] at hb
    exact_mod_cast hb
  omega

/-- Decoder for Rust `u8` fields: the JSON number must be an integer in
`0..=255`; anything else (negative, too large, fractional, non-number)
is rejected, never truncated. -/
def decodeU8 : Json → Except DecodeError (Fin 256)
  | .num q =>
    if h : 0 ≤ q ∧ q ≤ (255 : ℚ) ∧ q.den = 1 then
      .ok ⟨q.num.toNat, rat_toNat_lt h.1 (by exact_mod_cast h.2.1) h.2.2⟩
    else .error .invalidValue
  | _ => .error .invalidType

/-- Decoder for Rust `u32` fields: the JSON number must be an integer in
`0..=4294967295`; anything else is rejected, never truncated. -/
def decodeU32 : Json → Except DecodeError (Fin 4294967296)
  | .num q =>
    if h : 0 ≤ q ∧ q ≤ (4294967295 : ℚ) ∧ q.den = 1 then
      .ok ⟨q.num.toNat, rat_toNat_lt h.1 (by exact_mod_cast h.2.1) h.2.2⟩
    else .error .invalidValue
  | _ => .error .invalidType

/-- Decoder for Rust `f32` fields: any JSON number is accepted (serde_json
converts int or float payloads to the float type; the finite-precision
rounding of `f32` is below this model's abstraction, no claim depends
on it). -/
def decodeF32 : Json → Except DecodeError ℚ
  | .num q => .ok q
  | _ => .error .invalidType

/-- A sample of air quality data (`AirData` in `src/lib.rs`). Rust `u8` is
modelled as `Fin 256`, `u32` as `Fin 4294967296` and `f32` as `ℚ`. Field
names and their order follow the source declaration. -/
structure AirData where
  timestamp : DateTimeUtc
  score : Fin 256
  dew_point : ℚ
  temperature : ℚ
  humidity : ℚ
  absolute_humidity : ℚ
  co2 : Fin 4294967296
  estimated_co2 : Fin 4294967296
  estimated_co2_baseline : Fin 4294967296
  voc : Fin 4294967296
  voc_baseline : Fin 4294967296
  voc_h2_raw : Fin 4294967296
  voc_ethanol_raw : Fin 4294967296
  pm25 : Fin 4294967296
  estimated_pm10 : Fin 4294967296
  deriving DecidableEq

/-- The wire field names of `AirData`, after the `#[serde(rename)]`
attributes: `temperature` travels as `temp`, `humidity` as `humid`,
`absolute_humidity` as `abs_humid`, `estimated_co2` as `co2_est`,
`estimated_co2_baseline` as `co2_est_baseline` and `estimated_pm10`
as `pm10_est`; all other fields keep their names. -/
def airDataFields : List String :=
  ["timestamp", "score", "dew_point", "temp", "humid", "abs_humid", "co2",
   "co2_est", "co2_est_baseline", "voc", "voc_baseline", "voc_h2_raw",
   "voc_ethanol_raw", "pm25", "pm10_est"]

/-- Serde-derived deserializer for `AirData`: every field is required, the
six renamed fields are read under their wire names, and keys outside the
known field list are ignored (the struct does not opt into
`deny_unknown_fields`). -/
def decodeAirData (j : Json) : Except DecodeError AirData :=
  match j with
  | .obj kvs =>
    (reqField kvs "timestamp" decodeDateTime).bind fun timestamp =>
    (reqField kvs "score" decodeU8).bind fun score =>
    (reqField kvs "dew_point" decodeF32).bind fun dew_point =>
    (reqField kvs "temp" decodeF32).bind fun temperature =>
    (reqField kvs "humid" decodeF32).bind fun humidity =>
    (reqField kvs "abs_humid" decodeF32).bind fun absolute_humidity =>
    (reqField kvs "co2" decodeU32).bind fun co2 =>
    (reqField kvs "co2_est" decodeU32).bind fun estimated_co2 =>
    (reqField kvs "co2_est_baseline" decodeU32).bind fun estimated_co2_baseline =>
    (reqField kvs "voc" decodeU32).bind fun voc =>
    (reqField kvs "voc_baseline" decodeU32).bind fun voc_baseline =>
    (reqField kvs "voc_h2_raw" decodeU32).bind fun voc_h2_raw =>
    (reqField kvs "voc_ethanol_raw" decodeU32).bind fun voc_ethanol_raw =>
    (reqField kvs "pm25" decodeU32).bind fun pm25 =>
    (reqField kvs "pm10_est" decodeU32).bind fun estimated_pm10 =>
    .ok { timestamp, score, dew_point, temperature, humidity,
          absolute_humidity, co2, estimated_co2, estimated_co2_baseline,
          voc, voc_baseline, voc_h2_raw, voc_ethanol_raw, pm25,
          estimated_pm10 }
  | _ => .error .invalidType

/-- Serde-derived serializer for `AirData`: fields in declaration order,
under their wire names (the `rename` attribute applies to serialization
as well). -/
def encodeAirData (a : AirData) : Json :=
  .obj [("timestamp", .str a.timestamp.raw),
        ("score", .num ((a.score : ℕ) : ℚ)),
        ("dew_point", .num a.dew_point),
        ("temp", .num a.temperature),
        ("humid", .num a.humidity),
        ("abs_humid", .num a.absolute_humidity),
        ("co2", .num ((a.co2 : ℕ) : ℚ)),
        ("co2_est", .num ((a.estimated_co2 : ℕ) : ℚ)),
        ("co2_est_baseline", .num ((a.estimated_co2_baseline : ℕ) : ℚ)),
        ("voc", .num ((a.voc : ℕ) : ℚ)),
        ("voc_baseline", .num ((a.voc_baseline : ℕ) : ℚ)),
        ("voc_h2_raw", .num ((a.voc_h2_raw : ℕ) : ℚ)),
        ("voc_ethanol_raw", .num ((a.voc_ethanol_raw : ℕ) : ℚ)),
        ("pm25", .num ((a.pm25 : ℕ) : ℚ)),
        ("pm10_est", .num ((a.estimated_pm10 : ℕ) : ℚ))]

/-- The device's LED configuration state (`LedConfig` in `src/lib.rs`). -/
structure LedConfig where
  mode : String
  brightness : Fin 4294967296
  deriving DecidableEq

/-- Serde-derived deserializer for `LedConfig`: both fields required, no
renames, unknown keys ignored. -/
def decodeLedConfig (j : Json) : Except DecodeError LedConfig :=
  match j with
  | .obj kvs =>
    (reqField kvs "mode" decodeString).bind fun mode =>
    (reqField kvs "brightness" decodeU32).bind fun brightness =>
    .ok { mode, brightness }
  | _ => .error .invalidType

/-- Serde-derived serializer for `LedConfig`. -/
def encodeLedConfig (l : LedConfig) : Json :=
  .obj [("mode", .str l.mode),
        ("brightness", .num ((l.brightness : ℕ) : ℚ))]

/-- A device's active configuration (`DeviceConfig` in `src/lib.rs`).
`device_id` travels as `device_uuid` and `firmware_version` as
`fw_version`; the `led` field is the nested `LedConfig`. -/
structure DeviceConfig where
  device_id : String
  wifi_mac : String
  ssid : String
  ip : String
  netmask : String
  gateway : String
  firmware_version : String
  timezone : String
  display : String
  led : LedConfig
  voc_feature_set : Fin 4294967296
  deriving DecidableEq

/-- Serde-derived deserializer for `DeviceConfig`: every field required,
the two renamed fields read under their wire names, unknown keys
ignored, the `led` value decoded with the `LedConfig` deserializer. -/
def decodeDeviceConfig (j : Json) : Except DecodeError DeviceConfig :=
  match j with
  | .obj kvs =>
    (reqField kvs "device_uuid" decodeString).bind fun device_id =>
    (reqField kvs "wifi_mac" decodeString).bind fun wifi_mac =>
    (reqField kvs "ssid" decodeString).bind fun ssid =>
    (reqField kvs "ip" decodeString).bind fun ip =>
    (reqField kvs "netmask" decodeString).bind fun netmask =>
    (reqField kvs "gateway" decodeString).bind fun gateway =>
    (reqField kvs "fw_version" decodeString).bind fun firmware_version =>
    (reqField kvs "timezone" decodeString).bind fun timezone =>
    (reqField kvs "display" decodeString).bind fun display =>
    (reqField kvs "led" decodeLedConfig).bind fun led =>
    (reqField kvs "voc_feature_set" decodeU32).bind fun voc_feature_set =>
    .ok { device_id, wifi_mac, ssid, ip, netmask, gateway,
          firmware_version, timezone, display, led, voc_feature_set }
  | _ => .error .invalidType

/-- Serde-derived serializer for `DeviceConfig`: fields in declaration
order under their wire names. -/
def encodeDeviceConfig (d : DeviceConfig) : Json :=
  .obj [("device_uuid", .str d.device_id),
        ("wifi_mac", .str d.wifi_mac),
        ("ssid", .str d.ssid),
        ("ip", .str d.ip),
        ("netmask", .str d.netmask),
        ("gateway", .str d.gateway),
        ("fw_version", .str d.firmware_version),
        ("timezone", .str d.timezone),
        ("display", .str d.display),
        ("led", encodeLedConfig d.led),
        ("voc_feature_set", .num ((d.voc_feature_set : ℕ) : ℚ))]

/-- Errors of the `url` crate's parser relevant to this client. Modelled
from the spec: the `url` crate itself is outside the repository; only the
cases the client can surface are represented, plus a generic diagnostic. -/
inductive UrlParseError where
  | relativeUrlWithCannotBeABaseBase
  | emptyHost
  | invalidUrl (diagnostic : String)
  deriving DecidableEq

/-- The `url` crate's `Url`, modelled from the spec by its components: a
hierarchical URL has a scheme, host, optional port, path and optional
query; an opaque URL (`cannot_be_a_base`) keeps its non-hierarchical
remainder in `path`. -/
structure Url where
  scheme : String
  host : String
  port : Option ℕ
  path : String
  query : Option String
  cannot_be_a_base : Bool
  deriving DecidableEq

/-- String serialization of a `Url`, the value `String::from(url)` yields
in the source (`api_base.into()`). -/
def Url.serialize (u : Url) : String :=
  if u.cannot_be_a_base then u.scheme ++ ":" ++ u.path
  else
    u.scheme ++ "://" ++ u.host ++
      (match u.port with
       | some p => ":" ++ toString p
       | none => "") ++
      u.path ++
      (match u.query with
       | some q => "?" ++ q
       | none => "")

/-- The `url` crate's `Url::join`, modelled from the spec for the inputs
the client uses (absolute-path references such as `/air-data/latest`):
joining against a `cannot_be_a_base` URL fails, otherwise the base's path
and query are replaced by the given path and the scheme, host and port
are preserved. -/
def Url.join (u : Url) (input : String) : Except UrlParseError Url :=
  if u.cannot_be_a_base then .error .relativeUrlWithCannotBeABaseBase
  else .ok { u with path := input, query := none }

/-- Errors of the reqwest HTTP client as this library can observe them:
transport failures from `send`, status errors from `error_for_status`
and body-decode failures from `json`. -/
inductive ReqwestError where
  | transport (diagnostic : String)
  | status (code : ℕ)
  | decode (e : DecodeError)
  deriving DecidableEq

/-- An HTTP response delivered by the transport: a status code and a JSON
body. -/
structure Response where
  status : ℕ
  body : Json

/-- Models reqwest's `Response::error_for_status`: it errors exactly when
the status is a client error (400–499) or a server error (500–599); all
other statuses, 2xx or not, pass through. -/
def Response.error_for_status (r : Response) : Except ReqwestError Response :=
  if 400 ≤ r.status ∧ r.status ≤ 599 then .error (.status r.status) else .ok r

/-- The errors of `src/lib.rs` (`Error`): `InvalidBase` carries the
rejected URL's string serialization, `InvalidUrl` the parse diagnostic,
`Request` the underlying reqwest error. -/
inductive Error where
  | InvalidBase (url : String)
  | InvalidUrl (e : UrlParseError)
  | Request (e : ReqwestError)
  deriving DecidableEq

/-- A connection to an Awair device (`Awair` in `src/lib.rs`). The
reqwest client handle carries no state the model needs; the transport is
passed to `poll`/`config` as a function instead. -/
structure Awair where
  api_base : Url

/-- `Awair::new`: parse the string (an `InvalidUrl` error propagates the
parse diagnostic), reject a parsed URL that cannot be a base with
`InvalidBase` carrying its serialization, otherwise store the URL. The
URL parser itself lives in the `url` crate, so `new` is parameterized by
it. -/
def Awair.new (parse : String → Except UrlParseError Url) (api_base : String) :
    Except Error Awair :=
  match parse api_base with
  | .error e => .error (.InvalidUrl e)
  | .ok u =>
    if u.cannot_be_a_base then .error (.InvalidBase u.serialize)
    else .ok ⟨u⟩

/-- `Awair::poll`: join `/air-data/latest` against the stored base (a join
failure would surface as `InvalidUrl` through the `?` conversion), send
the GET, check the status, decode the body as `AirData`; transport,
status and decode failures all surface as `Request`. -/
def Awair.poll (send : Url → Except ReqwestError Response) (self : Awair) :
    Except Error AirData :=
  match self.api_base.join "/air-data/latest" with
  | .error e => .error (.InvalidUrl e)
  | .ok latest =>
    match send latest with
    | .error e => .error (.Request e)
    | .ok resp =>
      match resp.error_for_status with
      | .error e => .error (.Request e)
      | .ok resp =>
        match decodeAirData resp.body with
        | .error e => .error (.Request (.decode e))
        | .ok data => .ok data

/-- `Awair::config`: the same pipeline as `poll` against
`/settings/config/data`, decoding a `DeviceConfig`. -/
def Awair.config (send : Url → Except ReqwestError Response) (self : Awair) :
    Except Error DeviceConfig :=
  match self.api_base.join "/settings/config/data" with
  | .error e => .error (.InvalidUrl e)
  | .ok target =>
    match send target with
    | .error e => .error (.Request e)
    | .ok resp =>
      match resp.error_for_status with
      | .error e => .error (.Request e)
      | .ok resp =>
        match decodeDeviceConfig resp.body with
        | .error e => .error (.Request (.decode e))
        | .ok data => .ok data

/-- Boolean observer: did an `Except` computation succeed? -/
def exceptIsOk {ε α : Type} : Except ε α → Bool
  | .ok _ => true
  | .error _ => false

/-- Boolean observer: did the operation fail with a `Request`-kind error? -/
def errorIsRequest {α : Type} : Except Error α → Bool
  | .error (.Request _) => true
  | _ => false

/-- Boolean observer: is this error one of the two construction-time
kinds (`InvalidUrl` or `InvalidBase`)? -/
def errorIsConstruction : Error → Bool
  | .InvalidUrl _ => true
  | .InvalidBase _ => true
  | .Request _ => false

/-! ### Concrete inputs used by witnesses and counterexamples -/

/-- A hierarchical base URL, as the `url` crate parses `http://10.0.0.5`. -/
def demoBase : Url :=
  { scheme := "http", host := "10.0.0.5", port := none, path := "/",
    query := none, cannot_be_a_base := false }

/-- The base URL of spec property P4, as the `url` crate parses
`http://192.168.1.10:8080/ignored?x=1`. -/
def c4Base : Url :=
  { scheme := "http", host := "192.168.1.10", port := some 8080,
    path := "/ignored", query := some "x=1", cannot_be_a_base := false }

/-- A fully populated `AirData` wire body with the given `score` value. -/
def mkAirBody (score : ℚ) : List (String × Json) :=
  [("timestamp", .str "2024-01-01T00:00:00Z"), ("score", .num score),
   ("dew_point", .num 12), ("temp", .num 21), ("humid", .num 45),
   ("abs_humid", .num 8), ("co2", .num 612), ("co2_est", .num 600),
   ("co2_est_baseline", .num 36000), ("voc", .num 120),
   ("voc_baseline", .num 37000), ("voc_h2_raw", .num 26),
   ("voc_ethanol_raw", .num 36), ("pm25", .num 7), ("pm10_est", .num 8)]

/-- The record `mkAirBody` decodes to, with the given `score`. -/
def mkSample (score : Fin 256) : AirData :=
  { timestamp := ⟨"2024-01-01T00:00:00Z"⟩, score, dew_point := 12,
    temperature := 21, humidity := 45, absolute_humidity := 8, co2 := 612,
    estimated_co2 := 600, estimated_co2_baseline := 36000, voc := 120,
    voc_baseline := 37000, voc_h2_raw := 26, voc_ethanol_raw := 36,
    pm25 := 7, estimated_pm10 := 8 }

/-- A `mkAirBody` body with the required `co2` key removed. -/
def c6Body : List (String × Json) :=
  (mkAirBody 85).eraseP fun p => p.1 == "co2"

/-- The result of parsing `mailto:foo@example.com`: an opaque URL whose
`cannot_be_a_base` flag is set. -/
def c2MailtoUrl : Url :=
  { scheme := "mailto", host := "", port := none, path := "foo@example.com",
    query := none, cannot_be_a_base := true }

/-- A concrete URL parser covering the three construction inputs exercised
by the witnesses: one hierarchical URL, one opaque URL and everything
else unparseable. -/
def c2Parse : String → Except UrlParseError Url := fun s =>
  if s = "http://10.0.0.5" then .ok demoBase
  else if s = "mailto:foo@example.com" then .ok c2MailtoUrl
  else .error (.invalidUrl s)

/-- A transport that answers every request with status 304 (Not Modified,
a non-2xx status that reqwest's redirect handling does not intercept) and
a fully valid `AirData` body. -/
def c3Send : Url → Except ReqwestError Response := fun _ =>
  .ok ⟨304, .obj (mkAirBody 85)⟩

/-- A transport that answers every request with status 500 and a fully
valid `AirData` body. -/
def c3WitnessSend : Url → Except ReqwestError Response := fun _ =>
  .ok ⟨500, .obj (mkAirBody 85)⟩

/-- A transport that answers every request with status 200 and a body
missing the required `co2` field. -/
def c6Send : Url → Except ReqwestError Response := fun _ =>
  .ok ⟨200, .obj c6Body⟩

/-- A transport that fails at the connection level. -/
def c7FailSend : Url → Except ReqwestError Response := fun _ =>
  .error (.transport "connection refused")

/-- A transport that answers with status 200 and a valid body whose
`score` is 200, above the documented 0-100 range but within `u8`. -/
def c8Send : Url → Except ReqwestError Response := fun _ =>
  .ok ⟨200, .obj (mkAirBody 200)⟩

/-- The wire names and maximal values of the unsigned integer reading
fields of `AirData`: `score` is a `u8`, the rest are `u32`. -/
def uintFieldBounds : List (String × ℕ) :=
  [("score", 255), ("co2", 4294967295), ("co2_est", 4294967295),
   ("co2_est_baseline", 4294967295), ("voc", 4294967295),
   ("voc_baseline", 4294967295), ("voc_h2_raw", 4294967295),
   ("voc_ethanol_raw", 4294967295), ("pm25", 4294967295),
   ("pm10_est", 4294967295)]

/-! ### Helper lemmas -/

theorem except_bind_ok {E A B : Type} {step : Except E A} {rest : A → Except E B}
    {out : B} :
    step.bind rest = .ok out ↔ ∃ mid, step = .ok mid ∧ rest mid = .ok out := by
  cases step with
  | error e => simp [Except.bind]
  | ok mid => simp [Except.bind]

@[simp]
theorem decodeU8_natCast (n : Fin 256) :
    decodeU8 (.num ((n : ℕ) : ℚ)) = .ok n := by
  have h0 : (0 : ℚ) ≤ ((n : ℕ) : ℚ) := Nat.cast_nonneg _
  have hb : ((n : ℕ) : ℚ) ≤ (255 : ℚ) := by
    have h : (n : ℕ) ≤ 255 := by have := n.isLt; omega
    exact_mod_cast h
  have hd : (((n : ℕ) : ℚ)).den = 1 := Rat.den_natCast _
  rw [decodeU8, dif_pos ⟨h0, hb, hd⟩]
  congr 1

@[simp]
theorem decodeU32_natCast (n : Fin 4294967296) :
    decodeU32 (.num ((n : ℕ) : ℚ)) = .ok n := by
  have h0 : (0 : ℚ) ≤ ((n : ℕ) : ℚ) := Nat.cast_nonneg _
  have hb : ((n : ℕ) : ℚ) ≤ (4294967295 : ℚ) := by
    have h : (n : ℕ) ≤ 4294967295 := by have := n.isLt; omega
    exact_mod_cast h
  have hd : (((n : ℕ) : ℚ)).den = 1 := Rat.den_natCast _
  rw [decodeU32, dif_pos ⟨h0, hb, hd⟩]
  congr 1

@[simp]
theorem decodeDateTime_str (s : String) :
    decodeDateTime (.str s) = .ok ⟨s⟩ := rfl

@[simp]
theorem decodeString_str (s : String) :
    decodeString (.str s) = .ok s := rfl

@[simp]
theorem decodeF32_num (q : ℚ) : decodeF32 (.num q) = .ok q := rfl

theorem findField_eq_none {l : List (String × Json)} {n : String}
    (h : ∀ p ∈ l, p.1 ≠ n) : findField l n = none := by
  induction l with
  | nil => rfl
  | cons p rest ih =>
    rw [findField, if_neg (h p (by simp))]
    exact ih fun q hq => h q (by simp [hq])

theorem findField_filter_mem {names : List String} {n : String} (hn : n ∈ names)
    (kvs : List (String × Json)) :
    findField (kvs.filter fun p => decide (p.1 ∈ names)) n = findField kvs n := by
  induction kvs with
  | nil => rfl
  | cons p rest ih =>
    by_cases hk : p.1 ∈ names
    · rw [List.filter_cons, if_pos (by simpa using hk)]
      rw [findField, findField]
      by_cases hkn : p.1 = n
      · simp [hkn]
      · simp [hkn, ih]
    · rw [List.filter_cons, if_neg (by simpa using hk)]
      have hkn : p.1 ≠ n := fun h => hk (h ▸ hn)
      rw [findField, if_neg hkn]
      exact ih

theorem reqField_ok_find {α : Type} {kvs : List (String × Json)} {name : String}
    {dec : Json → Except DecodeError α} {x : α}
    (h : reqField kvs name dec = .ok x) :
    ∃ v, findField kvs name = some v ∧ dec v = .ok x := by
  unfold reqField at h
  cases hf : findField kvs name with
  | none => rw [hf] at h; exact absurd h (by simp)
  | some v => rw [hf] at h; exact ⟨v, rfl, h⟩

theorem decodeAirData_ok_fields {kvs : List (String × Json)} {a : AirData}
    (h : decodeAirData (.obj kvs) = .ok a) :
    reqField kvs "timestamp" decodeDateTime = .ok a.timestamp ∧
    reqField kvs "score" decodeU8 = .ok a.score ∧
    reqField kvs "dew_point" decodeF32 = .ok a.dew_point ∧
    reqField kvs "temp" decodeF32 = .ok a.temperature ∧
    reqField kvs "humid" decodeF32 = .ok a.humidity ∧
    reqField kvs "abs_humid" decodeF32 = .ok a.absolute_humidity ∧
    reqField kvs "co2" decodeU32 = .ok a.co2 ∧
    reqField kvs "co2_est" decodeU32 = .ok a.estimated_co2 ∧
    reqField kvs "co2_est_baseline" decodeU32 = .ok a.estimated_co2_baseline ∧
    reqField kvs "voc" decodeU32 = .ok a.voc ∧
    reqField kvs "voc_baseline" decodeU32 = .ok a.voc_baseline ∧
    reqField kvs "voc_h2_raw" decodeU32 = .ok a.voc_h2_raw ∧
    reqField kvs "voc_ethanol_raw" decodeU32 = .ok a.voc_ethanol_raw ∧
    reqField kvs "pm25" decodeU32 = .ok a.pm25 ∧
    reqField kvs "pm10_est" decodeU32 = .ok a.estimated_pm10 := by
  simp only [decodeAirData, except_bind_ok] at h
  obtain ⟨ts, hts, sc, hsc, dp, hdp, tm, htm, hm, hhm, ab, hab, c2, hc2,
    ce, hce, eb, heb, vc, hvc, vb, hvb, vh, hvh, ve, hve, pm, hpm,
    pe, hpe, hfin⟩ := h
  rw [Except.ok.injEq] at hfin
  subst hfin
  exact ⟨hts, hsc, hdp, htm, hhm, hab, hc2, hce, heb, hvc, hvb, hvh,
    hve, hpm, hpe⟩

theorem decodeU8_out_of_range {q : ℚ} (h : q < 0 ∨ (255 : ℚ) < q) (x : Fin 256) :
    decodeU8 (.num q) ≠ .ok x := by
  have hc : ¬(0 ≤ q ∧ q ≤ (255 : ℚ) ∧ q.den = 1) := by
    rintro ⟨h0, hb, -⟩
    rcases h with h | h
    · exact absurd h0 (not_le.mpr h)
    · exact absurd hb (not_le.mpr h)
  rw [decodeU8, dif_neg hc]
  simp

theorem decodeU32_out_of_range {q : ℚ} (h : q < 0 ∨ (4294967295 : ℚ) < q)
    (x : Fin 4294967296) : decodeU32 (.num q) ≠ .ok x := by
  have hc : ¬(0 ≤ q ∧ q ≤ (4294967295 : ℚ) ∧ q.den = 1) := by
    rintro ⟨h0, hb, -⟩
    rcases h with h | h
    · exact absurd h0 (not_le.mpr h)
    · exact absurd hb (not_le.mpr h)
  rw [decodeU32, dif_neg hc]
  simp

theorem poll_error_kinds {u : Url} (hcb : u.cannot_be_a_base = false)
    (send : Url → Except ReqwestError Response) (e : Error)
    (h : Awair.poll send ⟨u⟩ = .error e) : errorIsConstruction e = false := by
  simp only [Awair.poll, Url.join, hcb, Bool.false_eq_true, if_false] at h
  split at h
  · cases h; rfl
  · split at h
    · cases h; rfl
    · split at h
      · cases h; rfl
      · cases h

theorem config_error_kinds {u : Url} (hcb : u.cannot_be_a_base = false)
    (send : Url → Except ReqwestError Response) (e : Error)
    (h : Awair.config send ⟨u⟩ = .error e) : errorIsConstruction e = false := by
  simp only [Awair.config, Url.join, hcb, Bool.false_eq_true, if_false] at h
  split at h
  · cases h; rfl
  · split at h
    · cases h; rfl
    · split at h
      · cases h; rfl
      · cases h

/-! ### Claims -/

/-- C1: a JSON body carrying the wire keys `temp`, `humid`, `abs_humid`,
`co2_est`, `co2_est_baseline`, `pm10_est` together with all other required
`AirData` fields decodes to a record whose semantic fields `temperature`,
`humidity`, `absolute_humidity`, `estimated_co2`, `estimated_co2_baseline`,
`estimated_pm10` hold exactly the wire values, and every field outside the
renaming table decodes under its identical name. -/
theorem c1_field_renaming (ts : String) (score : Fin 256)
    (dew temp humid abs_humid : ℚ)
    (co2 co2_est co2_est_baseline voc voc_baseline voc_h2_raw
      voc_ethanol_raw pm25 pm10_est : Fin 4294967296) :
    decodeAirData (.obj
      [("timestamp", .str ts), ("score", .num ((score : ℕ) : ℚ)),
       ("dew_point", .num dew), ("temp", .num temp), ("humid", .num humid),
       ("abs_humid", .num abs_humid), ("co2", .num ((co2 : ℕ) : ℚ)),
       ("co2_est", .num ((co2_est : ℕ) : ℚ)),
       ("co2_est_baseline", .num ((co2_est_baseline : ℕ) : ℚ)),
       ("voc", .num ((voc : ℕ) : ℚ)),
       ("voc_baseline", .num ((voc_baseline : ℕ) : ℚ)),
       ("voc_h2_raw", .num ((voc_h2_raw : ℕ) : ℚ)),
       ("voc_ethanol_raw", .num ((voc_ethanol_raw : ℕ) : ℚ)),
       ("pm25", .num ((pm25 : ℕ) : ℚ)),
       ("pm10_est", .num ((pm10_est : ℕ) : ℚ))]) =
    .ok { timestamp := ⟨ts⟩, score := score, dew_point := dew,
          temperature := temp, humidity := humid,
          absolute_humidity := abs_humid, co2 := co2,
          estimated_co2 := co2_est,
          estimated_co2_baseline := co2_est_baseline, voc := voc,
          voc_baseline := voc_baseline, voc_h2_raw := voc_h2_raw,
          voc_ethanol_raw := voc_ethanol_raw, pm25 := pm25,
          estimated_pm10 := pm10_est } := by
  simp [decodeAirData, reqField, findField, Except.bind]

/-- C9: serializing an `AirData`, `DeviceConfig` or `LedConfig` record and
deserializing the result yields the original record: the renaming table
applies symmetrically, so encode followed by decode is the identity. -/
theorem c9_encode_decode_roundtrip :
    (∀ a : AirData, decodeAirData (encodeAirData a) = .ok a) ∧
    (∀ d : DeviceConfig, decodeDeviceConfig (encodeDeviceConfig d) = .ok d) ∧
    (∀ l : LedConfig, decodeLedConfig (encodeLedConfig l) = .ok l) := by
  refine ⟨fun a => ?_, fun d => ?_, fun l => ?_⟩
  · simp [decodeAirData, encodeAirData, reqField, findField, Except.bind]
  · simp [decodeDeviceConfig, encodeDeviceConfig, decodeLedConfig,
      encodeLedConfig, reqField, findField, Except.bind]
  · simp [decodeLedConfig, encodeLedConfig, reqField, findField, Except.bind]

/-- C5: decoding an `AirData` body ignores keys outside the known wire
field list: decoding any body equals decoding the body restricted to
known keys, and in particular a valid body extended with extra unknown
keys still decodes to the same record. -/
theorem c5_unknown_fields_ignored :
    (∀ body : List (String × Json),
      decodeAirData (.obj (body.filter fun p => decide (p.1 ∈ airDataFields))) =
        decodeAirData (.obj body)) ∧
    (∀ (kvs extras : List (String × Json)) (a : AirData),
      decodeAirData (.obj kvs) = .ok a →
      (∀ p ∈ extras, p.1 ∉ airDataFields) →
      decodeAirData (.obj (kvs ++ extras)) = .ok a) := by
  have hfilter : ∀ body : List (String × Json),
      decodeAirData (.obj (body.filter fun p => decide (p.1 ∈ airDataFields))) =
        decodeAirData (.obj body) := by
    intro body
    simp only [decodeAirData, reqField]
    have h : ∀ n : String, n ∈ airDataFields →
        findField (body.filter fun p => decide (p.1 ∈ airDataFields)) n =
          findField body n :=
      fun n hn => findField_filter_mem hn body
    rw [h "timestamp" (by decide), h "score" (by decide),
       h "dew_point" (by decide), h "temp" (by decide),
       h "humid" (by decide), h "abs_humid" (by decide),
       h "co2" (by decide), h "co2_est" (by decide),
       h "co2_est_baseline" (by decide), h "voc" (by decide),
       h "voc_baseline" (by decide), h "voc_h2_raw" (by decide),
       h "voc_ethanol_raw" (by decide), h "pm25" (by decide),
       h "pm10_est" (by decide)]
  refine ⟨hfilter, fun kvs extras a hok hext => ?_⟩
  have hnil : extras.filter (fun p => decide (p.1 ∈ airDataFields)) = [] := by
    rw [List.filter_eq_nil_iff]
    intro p hp
    simpa using hext p hp
  calc decodeAirData (.obj (kvs ++ extras))
      = decodeAirData (.obj ((kvs ++ extras).filter
          fun p => decide (p.1 ∈ airDataFields))) := (hfilter _).symm
    _ = decodeAirData (.obj (kvs.filter fun p => decide (p.1 ∈ airDataFields))) := by
        rw [List.filter_append, hnil, List.append_nil]
    _ = decodeAirData (.obj kvs) := hfilter kvs
    _ = .ok a := hok

/-- Witness for C5 at a concrete input: the full valid body plus one
unknown key decodes to the same record as the body itself. -/
theorem c5_unknown_fields_ignored_witness :
    decodeAirData (.obj (mkAirBody 85 ++ [("new_firmware_field", .num 3)])) =
      .ok (mkSample 85) :=
  c5_unknown_fields_ignored.2 (mkAirBody 85) [("new_firmware_field", .num 3)]
    (mkSample 85) (by rfl) (by decide)

/-- C10: decoding an `AirData` body fails whenever one of the unsigned
integer reading fields carries a negative number, the `score` exceeds 255,
or one of the `u32` count fields exceeds 4294967295: out-of-range wire
values are rejected, never truncated. -/
theorem c10_out_of_range_rejected (kvs : List (String × Json)) (n : String)
    (B : ℕ) (q : ℚ) (hmem : (n, B) ∈ uintFieldBounds)
    (hf : findField kvs n = some (.num q)) (hq : q < 0 ∨ (B : ℚ) < q) :
    exceptIsOk (decodeAirData (.obj kvs)) = false := by
  cases hdec : decodeAirData (.obj kvs) with
  | error e => rfl
  | ok a =>
    exfalso
    obtain ⟨-, hsc, -, -, -, -, hco2, hce, hcb, hvoc, hvb, hvh, hve, hpm, hpe⟩ :=
      decodeAirData_ok_fields hdec
    simp only [uintFieldBounds, List.mem_cons, List.mem_singleton,
      Prod.mk.injEq, List.not_mem_nil, or_false] at hmem
    rcases hmem with hm | hm | hm | hm | hm | hm | hm | hm | hm | hm <;>
      obtain ⟨rfl, rfl⟩ := hm
    · obtain ⟨v, hfv, hdv⟩ := reqField_ok_find hsc
      rw [hf] at hfv; injection hfv with hv; subst hv
      exact decodeU8_out_of_range (by push_cast at hq ⊢; exact hq) _ hdv
    · obtain ⟨v, hfv, hdv⟩ := reqField_ok_find hco2
      rw [hf] at hfv; injection hfv with hv; subst hv
      exact decodeU32_out_of_range (by push_cast at hq ⊢; exact hq) _ hdv
    · obtain ⟨v, hfv, hdv⟩ := reqField_ok_find hce
      rw [hf] at hfv; injection hfv with hv; subst hv
      exact decodeU32_out_of_range (by push_cast at hq ⊢; exact hq) _ hdv
    · obtain ⟨v, hfv, hdv⟩ := reqField_ok_find hcb
      rw [hf] at hfv; injection hfv with hv; subst hv
      exact decodeU32_out_of_range (by push_cast at hq ⊢; exact hq) _ hdv
    · obtain ⟨v, hfv, hdv⟩ := reqField_ok_find hvoc
      rw [hf] at hfv; injection hfv with hv; subst hv
      exact decodeU32_out_of_range (by push_cast at hq ⊢; exact hq) _ hdv
    · obtain ⟨v, hfv, hdv⟩ := reqField_ok_find hvb
      rw [hf] at hfv; injection hfv with hv; subst hv
      exact decodeU32_out_of_range (by push_cast at hq ⊢; exact hq) _ hdv
    · obtain ⟨v, hfv, hdv⟩ := reqField_ok_find hvh
      rw [hf] at hfv; injection hfv with hv; subst hv
      exact decodeU32_out_of_range (by push_cast at hq ⊢; exact hq) _ hdv
    · obtain ⟨v, hfv, hdv⟩ := reqField_ok_find hve
      rw [hf] at hfv; injection hfv with hv; subst hv
      exact decodeU32_out_of_range (by push_cast at hq ⊢; exact hq) _ hdv
    · obtain ⟨v, hfv, hdv⟩ := reqField_ok_find hpm
      rw [hf] at hfv; injection hfv with hv; subst hv
      exact decodeU32_out_of_range (by push_cast at hq ⊢; exact hq) _ hdv
    · obtain ⟨v, hfv, hdv⟩ := reqField_ok_find hpe
      rw [hf] at hfv; injection hfv with hv; subst hv
      exact decodeU32_out_of_range (by push_cast at hq ⊢; exact hq) _ hdv

/-- Witness for C10 at a concrete input: a body whose `score` is 300 is
rejected by the decoder. -/
theorem c10_out_of_range_rejected_witness :
    exceptIsOk (decodeAirData (.obj (mkAirBody 300))) = false :=
  c10_out_of_range_rejected (mkAirBody 300) "score" 255 300 (by decide)
    (by rfl) (by norm_num)

/-- C6: a JSON body lacking a required `AirData` wire field fails to
decode, and `poll` surfaces that failure as a `Request`-kind error — the
same kind as transport failures. -/
theorem c6_missing_field_fails (kvs : List (String × Json)) (n : String)
    (hmem : n ∈ airDataFields) (hf : findField kvs n = none) :
    exceptIsOk (decodeAirData (.obj kvs)) = false ∧
    ∀ (u : Url) (send : Url → Except ReqwestError Response) (resp : Response),
      u.cannot_be_a_base = false →
      send { u with path := "/air-data/latest", query := none } = .ok resp →
      ¬(400 ≤ resp.status ∧ resp.status ≤ 599) →
      resp.body = .obj kvs →
      errorIsRequest (Awair.poll send ⟨u⟩) = true := by
  have hfail : exceptIsOk (decodeAirData (.obj kvs)) = false := by
    cases hdec : decodeAirData (.obj kvs) with
    | error e => rfl
    | ok a =>
      exfalso
      obtain ⟨hts, hsc, hdp, htm, hhm, hab, hc2, hce, heb, hvc, hvb, hvh,
        hve, hpm, hpe⟩ := decodeAirData_ok_fields hdec
      have absurdField : ∀ {α : Type} {dec : Json → Except DecodeError α} {x : α},
          reqField kvs n dec = .ok x → False := by
        intro α dec x hok
        obtain ⟨v, hfv, -⟩ := reqField_ok_find hok
        rw [hf] at hfv
        exact Option.noConfusion hfv
      simp only [airDataFields, List.mem_cons, List.mem_singleton,
        List.not_mem_nil, or_false] at hmem
      rcases hmem with hm | hm | hm | hm | hm | hm | hm | hm | hm |
        hm | hm | hm | hm | hm | hm <;> subst hm
      · exact absurdField hts
      · exact absurdField hsc
      · exact absurdField hdp
      · exact absurdField htm
      · exact absurdField hhm
      · exact absurdField hab
      · exact absurdField hc2
      · exact absurdField hce
      · exact absurdField heb
      · exact absurdField hvc
      · exact absurdField hvb
      · exact absurdField hvh
      · exact absurdField hve
      · exact absurdField hpm
      · exact absurdField hpe
  refine ⟨hfail, fun u send resp hcb hsend hst hbody => ?_⟩
  rw [hcb] at hsend
  cases hdec : decodeAirData (.obj kvs) with
  | ok a => rw [hdec] at hfail; exact Bool.noConfusion hfail
  | error e =>
    simp [Awair.poll, Url.join, hcb, hsend, Response.error_for_status, hst,
      hbody, hdec, errorIsRequest]

/-- Witness for C6 at a concrete input: the valid body with `co2` removed
fails to decode, and `poll` against a device answering with it returns a
`Request`-kind error. -/
theorem c6_missing_field_fails_witness :
    exceptIsOk (decodeAirData (.obj c6Body)) = false ∧
    errorIsRequest (Awair.poll c6Send ⟨demoBase⟩) = true :=
  ⟨(c6_missing_field_fails c6Body "co2" (by decide) (by rfl)).1,
   (c6_missing_field_fails c6Body "co2" (by decide) (by rfl)).2 demoBase c6Send
     ⟨200, .obj c6Body⟩ rfl rfl (by decide) rfl⟩

/-- C2: for every construction input, a parse failure yields `InvalidUrl`
carrying the parse diagnostic; a parsed URL that cannot be a base yields
`InvalidBase` carrying the rejected URL's serialization; otherwise `new`
succeeds and stores the parsed URL. -/
theorem c2_construction (parse : String → Except UrlParseError Url) (s : String) :
    (∀ e, parse s = .error e → Awair.new parse s = .error (.InvalidUrl e)) ∧
    (∀ u, parse s = .ok u → u.cannot_be_a_base = true →
      Awair.new parse s = .error (.InvalidBase u.serialize)) ∧
    (∀ u, parse s = .ok u → u.cannot_be_a_base = false →
      Awair.new parse s = .ok ⟨u⟩) := by
  refine ⟨fun e he => ?_, fun u hu hcb => ?_, fun u hu hcb => ?_⟩
  · simp [Awair.new, he]
  · simp [Awair.new, hu, hcb]
  · simp [Awair.new, hu, hcb]

/-- Witness for C2 at concrete inputs: an unparseable string, an opaque
`mailto:` URL and a hierarchical URL, against a concrete parser. -/
theorem c2_construction_witness :
    Awair.new c2Parse "not a url" =
      .error (.InvalidUrl (.invalidUrl "not a url")) ∧
    Awair.new c2Parse "mailto:foo@example.com" =
      .error (.InvalidBase "mailto:foo@example.com") ∧
    Awair.new c2Parse "http://10.0.0.5" = .ok ⟨demoBase⟩ :=
  ⟨(c2_construction c2Parse "not a url").1 (.invalidUrl "not a url") (by rfl),
   (c2_construction c2Parse "mailto:foo@example.com").2.1 c2MailtoUrl
     (by rfl) (by rfl),
   (c2_construction c2Parse "http://10.0.0.5").2.2 demoBase (by rfl) (by rfl)⟩

/-- C3 (amended): a response whose status is a client or server error
(400–599) makes `poll` and `config` fail with a `Request`-kind status
error whatever the body is — the status is checked after the transport
round-trip and before decoding. (As stated over all non-2xx statuses the
claim fails: statuses outside 400–599, such as 304, pass
`error_for_status` and proceed to decode.) -/
theorem c3_status_checked_before_decode (u : Url)
    (send : Url → Except ReqwestError Response)
    (hcb : u.cannot_be_a_base = false) :
    (∀ resp : Response,
      send { u with path := "/air-data/latest", query := none } = .ok resp →
      400 ≤ resp.status → resp.status ≤ 599 →
      Awair.poll send ⟨u⟩ = .error (.Request (.status resp.status))) ∧
    (∀ resp : Response,
      send { u with path := "/settings/config/data", query := none } = .ok resp →
      400 ≤ resp.status → resp.status ≤ 599 →
      Awair.config send ⟨u⟩ = .error (.Request (.status resp.status))) := by
  constructor
  · intro resp hsend h4 h5
    rw [hcb] at hsend
    simp [Awair.poll, Url.join, hcb, hsend, Response.error_for_status, h4, h5]
  · intro resp hsend h4 h5
    rw [hcb] at hsend
    simp [Awair.config, Url.join, hcb, hsend, Response.error_for_status, h4, h5]

/-- Witness for C3 (amended) at a concrete input: a 500 response with a
valid-looking body makes both operations fail with the status error. -/
theorem c3_status_checked_before_decode_witness :
    Awair.poll c3WitnessSend ⟨demoBase⟩ = .error (.Request (.status 500)) ∧
    Awair.config c3WitnessSend ⟨demoBase⟩ = .error (.Request (.status 500)) :=
  ⟨(c3_status_checked_before_decode demoBase c3WitnessSend rfl).1
     ⟨500, .obj (mkAirBody 85)⟩ rfl (by decide) (by decide),
   (c3_status_checked_before_decode demoBase c3WitnessSend rfl).2
     ⟨500, .obj (mkAirBody 85)⟩ rfl (by decide) (by decide)⟩

/-- Counterexample to C3 as stated: status 304 is not 2xx, yet with a
valid body `poll` does not fail with a `Request`-kind error — the body is
decoded and returned, because reqwest's `error_for_status` only rejects
400–599. -/
theorem c3_non2xx_counterexample :
    (304 < 200 ∨ 299 < 304) ∧
    Awair.poll c3Send ⟨demoBase⟩ = .ok (mkSample 85) :=
  ⟨Or.inr (by norm_num), by rfl⟩

/-- C4: joining `/air-data/latest` (and `/settings/config/data`) against a
hierarchical base replaces its path and query while preserving scheme,
host and port; for the base `http://192.168.1.10:8080/ignored?x=1` the
target serializes to exactly `http://192.168.1.10:8080/air-data/latest`;
and `poll`/`config` consult the transport only at that joined URL. -/
theorem c4_url_joining :
    (∀ u : Url, u.cannot_be_a_base = false →
      u.join "/air-data/latest" =
        .ok { u with path := "/air-data/latest", query := none } ∧
      u.join "/settings/config/data" =
        .ok { u with path := "/settings/config/data", query := none }) ∧
    (c4Base.serialize = "http://192.168.1.10:8080/ignored?x=1" ∧
      (c4Base.join "/air-data/latest").map Url.serialize =
        .ok "http://192.168.1.10:8080/air-data/latest") ∧
    (∀ (u : Url) (send send' : Url → Except ReqwestError Response),
      u.cannot_be_a_base = false →
      send { u with path := "/air-data/latest", query := none } =
        send' { u with path := "/air-data/latest", query := none } →
      Awair.poll send ⟨u⟩ = Awair.poll send' ⟨u⟩) ∧
    (∀ (u : Url) (send send' : Url → Except ReqwestError Response),
      u.cannot_be_a_base = false →
      send { u with path := "/settings/config/data", query := none } =
        send' { u with path := "/settings/config/data", query := none } →
      Awair.config send ⟨u⟩ = Awair.config send' ⟨u⟩) := by
  refine ⟨fun u hcb => ⟨?_, ?_⟩, ⟨by rfl, by rfl⟩, fun u send send' hcb hs => ?_,
    fun u send send' hcb hs => ?_⟩
  · simp [Url.join, hcb]
  · simp [Url.join, hcb]
  · rw [hcb] at hs
    simp [Awair.poll, Url.join, hcb, hs]
  · rw [hcb] at hs
    simp [Awair.config, Url.join, hcb, hs]

/-- Witness for C4 at the concrete base of spec property P4. -/
theorem c4_url_joining_witness :
    c4Base.join "/air-data/latest" =
      .ok { c4Base with path := "/air-data/latest", query := none } ∧
    (c4Base.join "/air-data/latest").map Url.serialize =
      .ok "http://192.168.1.10:8080/air-data/latest" :=
  ⟨(c4_url_joining.1 c4Base rfl).1, c4_url_joining.2.1.2⟩

/-- C7: once construction has succeeded, `poll` and `config` never return
an `InvalidUrl` or `InvalidBase` error: joining the fixed paths against a
base that passed construction cannot fail (the parse-error branch inside
`poll`/`config` is unreachable) and every post-construction failure is of
the `Request` kind. -/
theorem c7_request_errors_only (parse : String → Except UrlParseError Url)
    (s : String) (c : Awair) (hnew : Awair.new parse s = .ok c) :
    exceptIsOk (c.api_base.join "/air-data/latest") = true ∧
    exceptIsOk (c.api_base.join "/settings/config/data") = true ∧
    ∀ (send : Url → Except ReqwestError Response) (e : Error),
      (Awair.poll send c = .error e → errorIsConstruction e = false) ∧
      (Awair.config send c = .error e → errorIsConstruction e = false) := by
  unfold Awair.new at hnew
  cases hp : parse s with
  | error e => rw [hp] at hnew; exact Except.noConfusion hnew
  | ok u =>
    rw [hp] at hnew
    have hnew' : (if u.cannot_be_a_base = true then
        Except.error (Error.InvalidBase u.serialize)
      else Except.ok (Awair.mk u)) = Except.ok c := hnew
    cases hu : u.cannot_be_a_base with
    | true => rw [hu] at hnew'; exact Except.noConfusion hnew'
    | false =>
      rw [hu] at hnew'
      simp only [Bool.false_eq_true, if_false, Except.ok.injEq] at hnew'
      subst hnew'
      refine ⟨by simp [Url.join, hu, exceptIsOk], by simp [Url.join, hu, exceptIsOk],
        fun send e => ⟨poll_error_kinds hu send e, config_error_kinds hu send e⟩⟩

/-- Witness for C7 at a concrete input: a client built from
`http://10.0.0.5` has a working join, and a transport failure surfaces as
a `Request` error, which is not a construction-time kind. -/
theorem c7_request_errors_only_witness :
    exceptIsOk ((Awair.mk demoBase).api_base.join "/air-data/latest") = true ∧
    errorIsConstruction (.Request (.transport "connection refused")) = false :=
  ⟨(c7_request_errors_only c2Parse "http://10.0.0.5" ⟨demoBase⟩ rfl).1,
   ((c7_request_errors_only c2Parse "http://10.0.0.5" ⟨demoBase⟩ rfl).2.2
      c7FailSend (.Request (.transport "connection refused"))).1 (by rfl)⟩

/-- C8 (amended): every `AirData` record that `poll` successfully returns
has a score that is an integer in the range 0 to 255 inclusive — the `u8`
range enforced by the decoder. (The documented 0–100 range is not
enforced: a score of 200 decodes successfully.) -/
theorem c8_score_u8_range (c : Awair) (send : Url → Except ReqwestError Response)
    (a : AirData) (_h : Awair.poll send c = .ok a) : (a.score : ℕ) ≤ 255 :=
  Nat.le_of_lt_succ a.score.isLt

/-- Witness for C8 (amended) at a concrete input. -/
theorem c8_score_u8_range_witness : ((mkSample 200).score : ℕ) ≤ 255 :=
  c8_score_u8_range ⟨demoBase⟩ c8Send (mkSample 200) (by rfl)

/-- Counterexample to C8 as stated: a device answering with a valid body
whose score is 200 makes `poll` return a record whose score exceeds 100. -/
theorem c8_score_counterexample :
    Awair.poll c8Send ⟨demoBase⟩ = .ok (mkSample 200) ∧
    100 < ((mkSample 200).score : ℕ) :=
  ⟨by rfl, by decide⟩

end AwairLocalApi
